import Mathlib

/-!
Verification development for the JARVIS voice-assistant repository.

The Python sources are shallowly embedded:
  * `core/speech_engine.py` (`SpeechEngine`): strings are `List Char`,
    Python string operations (`in`, `split(sep, 1)[-1]`, `strip()`,
    `lower()`) are modelled by executable functions below, and the
    engine's mutable fields become the record `EngineState`.
  * `core/jarvis_core.py` (`JarvisCore`): the external collaborators
    (NLP, memory, automation, plugins, delivery) are modelled from the
    narrow contracts in the specification as `Except`-returning fields
    of a `Collab` record; every `await` that can raise becomes a bind in
    the `Except String` monad.  Python attribute lookup on `self` is
    modelled by `getCoreAttr` over the list of methods that the class
    body actually defines, because `JarvisCore` references several
    methods that do not exist.
Wall-clock timestamps (`datetime.now()`) are ambient inputs carried as
opaque strings on the collaborator record; they play no role in any
claim.
-/

/-! ## Python string primitives (speech engine works on lowered text) -/

/-- Python `str.isspace` characters relevant to `str.strip()` (ASCII). -/
def pyIsSpace (c : Char) : Bool :=
  c = ' ' || c = '\t' || c = '\n' || c = '\x0d' || c = '\x0b' || c = '\x0c'

/-- Python `str.lstrip()`: drop leading whitespace. -/
def pyLStrip (s : List Char) : List Char := s.dropWhile pyIsSpace

/-- Python `str.rstrip()`: drop trailing whitespace. -/
def pyRStrip (s : List Char) : List Char := (s.reverse.dropWhile pyIsSpace).reverse

/-- Python `str.strip()`: drop whitespace from both ends. -/
def pyStrip (s : List Char) : List Char := pyRStrip (pyLStrip s)

/-- Python `str.lower()` on the recognized text (ASCII case folding). -/
def pyLower (s : List Char) : List Char := s.map Char.toLower

/-- Boolean prefix test: `startsWith pat s` holds when `pat` begins `s`. -/
def startsWith : List Char → List Char → Bool
  | [], _ => true
  | _ :: _, [] => false
  | p :: ps, c :: cs => p = c && startsWith ps cs

/-- Remainder of `s` after the first occurrence of `pat`, scanning left to
right; `none` when `pat` does not occur.  This is the semantics of
Python's first-occurrence search used by `in` and `split(pat, 1)`. -/
def pyFindRest (pat : List Char) : List Char → Option (List Char)
  | [] => if startsWith pat [] then some [] else none
  | c :: cs =>
    if startsWith pat (c :: cs) then some (List.drop pat.length (c :: cs))
    else pyFindRest pat cs

/-- Python `pat in s` (substring containment). -/
def pyIn (pat s : List Char) : Bool := (pyFindRest pat s).isSome

/-- Python `s.split(pat, 1)[-1]`: the text after the first occurrence of
`pat`, or the whole string when `pat` does not occur. -/
def pySplitOnceLast (pat s : List Char) : List Char := (pyFindRest pat s).getD s

/-! ## SpeechEngine: wake words, command queue, state machine -/

/-- `SpeechEngine.wake_words = ["jarvis", "hey jarvis", "ok jarvis"]`. -/
def wake_words : List (List Char) :=
  ["jarvis".toList, "hey jarvis".toList, "ok jarvis".toList]

/-- `SpeechEngine._contains_wake_word`:
`any(wake_word in text for wake_word in self.wake_words)`. -/
def contains_wake_word (text : List Char) : Bool :=
  wake_words.any (fun w => pyIn w text)

/-- Loop body of `SpeechEngine._extract_command_from_wake_phrase`:
for each wake word in order, if it occurs in the text, split once at it,
strip the remainder, and return it when longer than 2 characters;
otherwise keep scanning the remaining wake words. -/
def extractLoop : List (List Char) → List Char → Option (List Char)
  | [], _ => none
  | w :: ws, text =>
    if pyIn w text then
      if (pyStrip (pySplitOnceLast w text)).length > 2 then
        some (pyStrip (pySplitOnceLast w text))
      else extractLoop ws text
    else extractLoop ws text

/-- `SpeechEngine._extract_command_from_wake_phrase(text)`. -/
def extract_command_from_wake_phrase (text : List Char) : Option (List Char) :=
  extractLoop wake_words text

/-- Rule modelled from the claim (C10) for comparison with the source
function: the command is the text after the first occurrence of
`"jarvis"` (the first matching phrase in list order, since `"jarvis"` is
a substring of every configured phrase), trimmed, produced only when the
trimmed residual is strictly longer than 2 characters. -/
def extract_spec_rule (text : List Char) : Option (List Char) :=
  if pyIn "jarvis".toList text then
    if (pyStrip (pySplitOnceLast "jarvis".toList text)).length > 2 then
      some (pyStrip (pySplitOnceLast "jarvis".toList text))
    else none
  else none

/-- Python `queue.Queue` restricted to what the source uses: `maxsize`
(constructor default `0`; per the `queue` module, a `maxsize` that is not
positive means the queue size is infinite) and the FIFO list of items. -/
structure PyQueue (α : Type) where
  maxsize : Int
  items : List α
deriving DecidableEq

/-- `Queue.put(x)`: when the queue is bounded and full the item is not
accepted (the source's blocking `put` would block; the flag records
acceptance), otherwise the item is appended at the tail. -/
def PyQueue.put {α : Type} (q : PyQueue α) (x : α) : PyQueue α × Bool :=
  if 0 < q.maxsize ∧ (q.maxsize ≤ q.items.length) then (q, false)
  else ({ q with items := q.items ++ [x] }, true)

/-- `self.command_queue = queue.Queue()` from `SpeechEngine.__init__`:
default `maxsize = 0`, empty. -/
def command_queue_init : PyQueue (List Char) := { maxsize := 0, items := [] }

/-- Loop of `SpeechEngine.get_pending_commands`: repeatedly
`get_nowait()` until the queue is empty, collecting items in FIFO
order. -/
def drainLoop {α : Type} : List α → List α
  | [] => []
  | x :: rest => x :: drainLoop rest

/-- `SpeechEngine.get_pending_commands()`: drains the queue, returning
the pending commands in FIFO order together with the emptied queue. -/
def get_pending_commands (q : PyQueue (List Char)) :
    List (List Char) × PyQueue (List Char) :=
  (drainLoop q.items, { q with items := [] })

/-- Sequence of `put` calls, recording whether every item was accepted. -/
def putAll {α : Type} : PyQueue α → List α → PyQueue α × Bool
  | q, [] => (q, true)
  | q, x :: xs =>
    let r := putAll (q.put x).1 xs
    (r.1, (q.put x).2 && r.2)

/-- Which of the `SpeechEngine` callback slots are registered. -/
structure Callbacks where
  on_wake_word : Bool
  on_command : Bool
  on_listening_start : Bool
  on_listening_stop : Bool
deriving DecidableEq

/-- Mutable `SpeechEngine` fields touched by the claims. -/
structure EngineState where
  is_listening : Bool
  wake_word_detected : Bool
  command_queue : PyQueue (List Char)
deriving DecidableEq

/-- Externally observable callback firings of the speech engine. -/
inductive SpeechEvent where
  | listening_start : SpeechEvent
  | listening_stop : SpeechEvent
  | wake_word_event : SpeechEvent
  | command_event : List Char → SpeechEvent
deriving DecidableEq

/-- Result of `recognizer.recognize_google` at the engine boundary:
recognized text, or one of the two expected recognition failures. -/
inductive RecogResult where
  | ok : List Char → RecogResult
  | unknownValue : RecogResult
  | requestError : String → RecogResult

/-- `SpeechEngine._handle_command(command)`: put the command on the
command queue and fire the `on_command` callback when registered. -/
def handle_command (cb : Callbacks) (s : EngineState) (command : List Char) :
    EngineState × List SpeechEvent :=
  ({ s with command_queue := (s.command_queue.put command).1 },
   if cb.on_command then [SpeechEvent.command_event command] else [])

/-- `SpeechEngine._process_audio(audio)` after recognition: lower the
text; on a wake-word hit set `wake_word_detected = True`, fire the wake
callback, and treat the post-wake residual as an immediate command when
the extraction returns one; otherwise, when already armed, treat the
entire utterance as the command and disarm; recognition failures are
dropped. -/
def process_audio (cb : Callbacks) (s : EngineState) :
    RecogResult → EngineState × List SpeechEvent
  | RecogResult.unknownValue => (s, [])
  | RecogResult.requestError _ => (s, [])
  | RecogResult.ok rawText =>
    let text := pyLower rawText
    if contains_wake_word text then
      let s1 := { s with wake_word_detected := true }
      let wakeEvents :=
        if cb.on_wake_word then [SpeechEvent.wake_word_event] else []
      match extract_command_from_wake_phrase text with
      | some command =>
        let r := handle_command cb s1 command
        (r.1, wakeEvents ++ r.2)
      | none => (s1, wakeEvents)
    else if s.wake_word_detected then
      let r := handle_command cb s text
      ({ r.1 with wake_word_detected := false }, r.2)
    else (s, [])

/-- `SpeechEngine.stop_listening()`: when listening, clear both flags and
fire `on_listening_stop` when registered; otherwise do nothing. -/
def stop_listening (cb : Callbacks) (s : EngineState) :
    EngineState × List SpeechEvent :=
  if s.is_listening then
    ({ s with is_listening := false, wake_word_detected := false },
     if cb.on_listening_stop then [SpeechEvent.listening_stop] else [])
  else (s, [])

/-- Inputs driving the speech engine over time: a recognized audio item
handed to `_process_audio`, or elapsed wall-clock time with no
utterance. -/
inductive SpeechEngineInput where
  | audio : RecogResult → SpeechEngineInput
  | timePasses : Nat → SpeechEngineInput

/-- One step of the speech engine.  The source has no timer: neither
`SpeechEngine.__init__` nor any loop defines a wake-word timeout, and
`wake_word_detected` is mutated only inside `_process_audio` and
`stop_listening`, so the passage of time with no utterance runs no
detector code and is the identity on the state. -/
def speech_step (cb : Callbacks) (s : EngineState) :
    SpeechEngineInput → EngineState × List SpeechEvent
  | SpeechEngineInput.audio r => process_audio cb s r
  | SpeechEngineInput.timePasses _ => (s, [])

/-- Engine state as built by `SpeechEngine.__init__` once listening:
not armed, default unbounded command queue. -/
def engineIdle : EngineState :=
  { is_listening := true, wake_word_detected := false,
    command_queue := command_queue_init }

/-- All four callbacks registered. -/
def cbAll : Callbacks :=
  { on_wake_word := true, on_command := true,
    on_listening_start := true, on_listening_stop := true }

/-- Engine state when not listening. -/
def engineStopped : EngineState :=
  { is_listening := false, wake_word_detected := false,
    command_queue := command_queue_init }

/-- Engine state after processing the bare utterance `"hey jarvis"` from
idle: armed, nothing enqueued. -/
def engineArmed : EngineState :=
  (process_audio cbAll engineIdle (RecogResult.ok ("hey jarvis".toList))).1

/-! ## JarvisCore: response type, collaborators, dispatch pipeline -/

/-- The `JarvisResponse` dataclass.  The `timestamp` field, filled from
`datetime.now()`, is ambient wall-clock data and is not modelled. -/
structure JarvisResponse where
  text : String
  action : Option String := none
  data : Option (List (String × String)) := none
  confidence : ℚ := 0
deriving DecidableEq

/-- Result of the NLP collaborator, after `JarvisCore.process_command`
applies `nlp_result.get("intent")`, `.get("entities", {})`, and
`.get("confidence", 0.0)`: a possibly missing intent, a string-to-string
entity mapping, and a confidence. -/
structure NLPResult where
  intent : Option String
  entities : List (String × String)
  confidence : ℚ

/-- Python `dict.get(key)` on a string-to-string mapping. -/
def dictGet (d : List (String × String)) (k : String) : Option String :=
  match d with
  | [] => none
  | p :: rest => if p.1 = k then some p.2 else dictGet rest k

/-- Python `dict.get(key, default)` on a string-to-string mapping. -/
def dictGetD (d : List (String × String)) (k default : String) : String :=
  (dictGet d k).getD default

/-- The execution context built by `JarvisCore._build_context`. -/
structure Context where
  current_time : String
  user_location : String
  recent_history : List String
  system_status : List (String × String)
  user_preferences : List (String × String)
  active_applications : List String

/-- The interaction record handed to the memory collaborator by
`JarvisCore._store_interaction`. -/
structure Interaction where
  timestamp : String
  command : String
  response : String
  source : String
  confidence : ℚ

/-- External collaborators of `JarvisCore`, modelled from the contracts
in the specification (NLP, memory, automation, plugin, delivery
collaborators); every call can fail, which in Python surfaces as a
raised exception and is modelled by `Except String`.  `now` and
`clock_text` stand for the ambient wall clock (`datetime.now()` and its
`strftime` rendering). -/
structure Collab where
  analyze : String → Except String NLPResult
  get_recent_interactions : Nat → Except String (List String)
  get_user_preferences : Except String (List (String × String))
  get_active_apps : Except String (List String)
  execute_automation :
    Option String → Option String → Context →
      Except String (List (String × String))
  execute_system_command :
    Option String → Option String → Except String (List (String × String))
  try_plugins :
    List (String × String) → Context → Except String (Option JarvisResponse)
  store_interaction : Interaction → Except String Unit
  speak : String → Except String Unit
  send_response : JarvisResponse → Except String Unit
  now : String
  clock_text : String

/-- Methods actually defined in the body of class `JarvisCore` in
`core/jarvis_core.py`. -/
def jarvis_core_methods : List String :=
  ["__init__", "initialize", "_setup_event_handlers",
   "register_event_handler", "emit_event", "process_command",
   "_build_context", "_route_command", "_handle_automation_command",
   "_handle_information_command", "_handle_system_command",
   "_handle_unknown_command", "start_voice_listening",
   "start_web_interface", "start_background_monitoring", "health_check",
   "shutdown", "_handle_voice_command", "_handle_wake_word",
   "_handle_web_command", "_get_user_location", "_get_system_status",
   "_store_interaction", "_deliver_response", "_monitor_system_health",
   "_get_weather_info", "_get_news_info", "_get_time_info",
   "_get_general_info"]

/-- Python attribute lookup `self.<name>` on a `JarvisCore` instance:
returns unit for a defined method and raises `AttributeError`
otherwise. -/
def getCoreAttr (name : String) : Except String Unit :=
  if jarvis_core_methods.contains name then Except.ok ()
  else Except.error ("AttributeError: JarvisCore has no attribute " ++ name)

/-- `JarvisCore._get_system_status()`: a fixed status mapping. -/
def get_system_status : List (String × String) :=
  [("cpu_usage", "0.0"), ("memory_usage", "0.0"), ("disk_usage", "0.0"),
   ("network_status", "connected")]

/-- `JarvisCore._build_context`: fresh snapshot; the memory and
automation collaborator calls are awaited in the order the dict literal
evaluates them, and any failure propagates. -/
def build_context (c : Collab) : Except String Context := do
  let hist ← c.get_recent_interactions 5
  let prefs ← c.get_user_preferences
  let apps ← c.get_active_apps
  pure { current_time := c.now, user_location := "Unknown",
         recent_history := hist, system_status := get_system_status,
         user_preferences := prefs, active_applications := apps }

/-- Python `x or y` used as `subject or context.get("user_location")`:
an empty or missing subject falls back to the context's location. -/
def pyOrLocation (subject : Option String) (location : String) : String :=
  match subject with
  | some s => if s = "" then location else s
  | none => location

/-- Python string interpolation of a possibly missing value. -/
def pyStrOpt : Option String → String
  | some s => s
  | none => "None"

/-- `JarvisCore._get_weather_info(location)`. -/
def get_weather_info (location : String) : List (String × String) :=
  [("text", "Weather information for " ++ location ++
      " is not available right now.")]

/-- `JarvisCore._get_news_info(topic)`. -/
def get_news_info (topic : Option String) : List (String × String) :=
  [("text", "Latest news about " ++ pyStrOpt topic ++
      " is not available right now.")]

/-- `JarvisCore._get_time_info(timezone)`: formats the current wall
clock. -/
def get_time_info (c : Collab) : List (String × String) :=
  [("text", "The current time is " ++ c.clock_text)]

/-- `JarvisCore._get_general_info(query)`. -/
def get_general_info (query : Option String) : List (String × String) :=
  [("text", "I don\x27t have specific information about " ++ pyStrOpt query ++
      " right now.")]

/-- `JarvisCore._handle_automation_command`. -/
def handle_automation_command (c : Collab) (entities : List (String × String))
    (ctx : Context) (confidence : ℚ) : Except String JarvisResponse := do
  let result ← c.execute_automation (dictGet entities "action")
    (dictGet entities "target") ctx
  pure { text := dictGetD result "message" "Automation executed successfully",
         action := some "automation", data := some result,
         confidence := confidence }

/-- `JarvisCore._handle_information_command`. -/
def handle_information_command (c : Collab)
    (entities : List (String × String)) (ctx : Context) (confidence : ℚ) :
    Except String JarvisResponse := do
  let query_type := dictGet entities "query_type"
  let subject := dictGet entities "subject"
  let info :=
    if query_type = some "weather" then
      get_weather_info (pyOrLocation subject ctx.user_location)
    else if query_type = some "news" then get_news_info subject
    else if query_type = some "time" then get_time_info c
    else get_general_info subject
  pure { text := dictGetD info "text" "Here\x27s what I found",
         action := some "information", data := some info,
         confidence := confidence }

/-- `JarvisCore._handle_system_command`; the `context` parameter is
accepted but unused, as in the source. -/
def handle_system_command (c : Collab) (entities : List (String × String))
    (_ctx : Context) (confidence : ℚ) : Except String JarvisResponse := do
  let result ← c.execute_system_command (dictGet entities "action")
    (dictGet entities "target")
  pure { text := dictGetD result "message" "System command executed",
         action := some "system_control", data := some result,
         confidence := confidence }

/-- `JarvisCore._handle_unknown_command`: try the plugin chain first,
else the fixed low-confidence fallback; the `confidence` parameter is
accepted but unused, as in the source. -/
def handle_unknown_command (c : Collab) (entities : List (String × String))
    (ctx : Context) (_confidence : ℚ) : Except String JarvisResponse := do
  let plugin_response ← c.try_plugins entities ctx
  match plugin_response with
  | some r => pure r
  | none =>
    pure { text := "I\x27m not sure how to help with that. Could you rephrase your request?",
           confidence := 1/10 }

/-- `JarvisCore._route_command`: building the `command_handlers` dict
literal evaluates six attribute lookups on `self`; the class defines no
`_handle_entertainment_command`, `_handle_productivity_command` or
`_handle_personal_command`, so the lookup raises `AttributeError` before
any dispatch.  The dispatch (`command_handlers.get(intent,
self._handle_unknown_command)`) follows for completeness; the arms for
the three undefined handlers are unreachable. -/
def route_command (c : Collab) (intent : Option String)
    (entities : List (String × String)) (ctx : Context) (confidence : ℚ) :
    Except String JarvisResponse := do
  let _ ← getCoreAttr "_handle_automation_command"
  let _ ← getCoreAttr "_handle_information_command"
  let _ ← getCoreAttr "_handle_system_command"
  let _ ← getCoreAttr "_handle_entertainment_command"
  let _ ← getCoreAttr "_handle_productivity_command"
  let _ ← getCoreAttr "_handle_personal_command"
  match intent with
  | some "automation" => handle_automation_command c entities ctx confidence
  | some "information" => handle_information_command c entities ctx confidence
  | some "system_control" => handle_system_command c entities ctx confidence
  | some "entertainment" =>
    Except.error "AttributeError: JarvisCore has no attribute _handle_entertainment_command"
  | some "productivity" =>
    Except.error "AttributeError: JarvisCore has no attribute _handle_productivity_command"
  | some "personal" =>
    Except.error "AttributeError: JarvisCore has no attribute _handle_personal_command"
  | _ => handle_unknown_command c entities ctx confidence

/-- `JarvisCore._store_interaction`: build the record and hand it to the
memory collaborator; its failure propagates to the caller of this
helper. -/
def core_store_interaction (c : Collab) (command : String)
    (response : JarvisResponse) (source : String) : Except String Unit :=
  c.store_interaction
    { timestamp := c.now, command := command, response := response.text,
      source := source, confidence := response.confidence }

/-- `JarvisCore._deliver_response`: voice goes to `speak`, web goes to
`send_response`, other sources deliver nothing. -/
def deliver_response (c : Collab) (response : JarvisResponse)
    (source : String) : Except String Unit :=
  if source = "voice" then c.speak response.text
  else if source = "web" then c.send_response response
  else Except.ok ()

/-- Body of the `try` block of `JarvisCore.process_command`: the five
pipeline steps in order, any raise aborting the rest. -/
def processCommandAux (c : Collab) (command source : String) :
    Except String JarvisResponse := do
  let nlp ← c.analyze command
  let ctx ← build_context c
  let response ← route_command c nlp.intent nlp.entities ctx nlp.confidence
  let _ ← core_store_interaction c command response source
  let _ ← deliver_response c response source
  pure response

/-- The fixed response built in the `except` clause of
`process_command`. -/
def errorResponse : JarvisResponse :=
  { text := "I encountered an error processing that command. Please try again.",
    confidence := 0 }

/-- `JarvisCore.process_command`: the whole pipeline inside one
`try`/`except`; any raise anywhere yields the fixed error response, so
the function is total and never propagates an exception. -/
def process_command (c : Collab) (command source : String) : JarvisResponse :=
  match processCommandAux c command source with
  | Except.ok r => r
  | Except.error _ => errorResponse

/-! ## EventBus: handler registry, registration, emission -/

/-- A registered event handler: an identity and its behaviour on the
payload, which may raise. -/
structure EHandler where
  id : Nat
  run : List (String × String) → Except String Unit

/-- The handler registry `self.event_handlers : Dict[str, List[Callable]]`,
as an association list keyed by event type. -/
def RegistryT : Type := List (String × List EHandler)

/-- `JarvisCore.register_event_handler`: create the key with an empty
list when absent, then append the handler. -/
def register_event_handler : RegistryT → String → EHandler → RegistryT
  | [], t, h => [(t, [h])]
  | (t', hs) :: rest, t, h =>
    if t' = t then (t', hs ++ [h]) :: rest
    else (t', hs) :: register_event_handler rest t h

/-- Handlers registered for an event type; the empty list when the type
is absent (`if event_type in self.event_handlers` guard). -/
def handlersFor : RegistryT → String → List EHandler
  | [], _ => []
  | (t', hs) :: rest, t => if t' = t then hs else handlersFor rest t

/-- Loop of `JarvisCore.emit_event`: each handler is awaited inside its
own `try`/`except`, so a raise is recorded (logged) and the loop
continues with the next handler; the trace lists every invocation in
order with its outcome. -/
def emitLoop (p : List (String × String)) :
    List EHandler → List (Nat × Except String Unit)
  | [] => []
  | h :: hs => (h.id, h.run p) :: emitLoop p hs

/-- `JarvisCore.emit_event(event_type, data)`: invoke the registered
handlers on `data or {}`; the function returns the invocation trace and
(by its type) never raises. -/
def emit_event (reg : RegistryT) (t : String)
    (payload : Option (List (String × String))) :
    List (Nat × Except String Unit) :=
  emitLoop (payload.getD []) (handlersFor reg t)

/-! ## Orchestrator lifecycle: component order on init and shutdown -/

/-- The six components owned by `JarvisCore`. -/
inductive Component where
  | memory | nlp | speech | automation | plugins | web
deriving DecidableEq

/-- Component construction-and-`initialize` order in
`JarvisCore.initialize`. -/
def init_order : List Component :=
  [Component.memory, Component.nlp, Component.speech, Component.automation,
   Component.plugins, Component.web]

/-- Order of the guarded `if self.<component>: await <component>.shutdown()`
statements in `JarvisCore.shutdown`; note the plugin manager does not
appear. -/
def shutdown_order : List Component :=
  [Component.web, Component.automation, Component.speech, Component.nlp,
   Component.memory]

/-- Run a sequence of per-component steps strictly in order with no
per-step guard: the first raise aborts the remaining steps and
propagates.  Returns the components whose step completed, in execution
order, and the overall outcome. -/
def runSteps (b : Component → Except String Unit) :
    List Component → List Component × Except String Unit
  | [] => ([], Except.ok ())
  | c :: rest =>
    match b c with
    | Except.error e => ([], Except.error e)
    | Except.ok () =>
      let r := runSteps b rest
      (c :: r.1, r.2)

/-- `JarvisCore._setup_event_handlers`: registers five handlers; the
registrations evaluate attribute lookups on `self`, and the class
defines no `_handle_system_alert` or `_handle_automation`, so the third
lookup raises `AttributeError`. -/
def setup_event_handlers : Except String Unit := do
  let _ ← getCoreAttr "_handle_voice_command"
  let _ ← getCoreAttr "_handle_wake_word"
  let _ ← getCoreAttr "_handle_system_alert"
  let _ ← getCoreAttr "_handle_automation"
  let _ ← getCoreAttr "_handle_web_command"
  pure ()

/-- `JarvisCore.initialize`: construct and initialize the six components
in dependency order, each completing before the next starts and the
first failure aborting the rest (the `except` clause logs and
re-raises); on success of all six, run `_setup_event_handlers`. -/
def jarvis_init (b : Component → Except String Unit) :
    List Component × Except String Unit :=
  let r := runSteps b init_order
  match r.2 with
  | Except.error e => (r.1, Except.error e)
  | Except.ok () => (r.1, setup_event_handlers)

/-- `JarvisCore.shutdown`: the five shutdown awaits in source order with
no per-step `try`/`except`. -/
def jarvis_shutdown (b : Component → Except String Unit) :
    List Component × Except String Unit :=
  runSteps b shutdown_order

/-! ## Concrete instances used by witnesses and counterexamples -/

/-- A collaborator assembly on which every external call succeeds; the
NLP collaborator classifies everything as a time request. -/
def okCollabBase : Collab :=
  { analyze := fun _ =>
      Except.ok { intent := some "information",
                  entities := [("query_type", "time")], confidence := 9/10 },
    get_recent_interactions := fun _ => Except.ok [],
    get_user_preferences := Except.ok [],
    get_active_apps := Except.ok [],
    execute_automation := fun _ _ _ => Except.ok [("message", "done")],
    execute_system_command := fun _ _ => Except.ok [("message", "done")],
    try_plugins := fun _ _ => Except.ok none,
    store_interaction := fun _ => Except.ok (),
    speak := fun _ => Except.ok (),
    send_response := fun _ => Except.ok (),
    now := "2026-10-12 00:00:00",
    clock_text := "12:00 AM" }

/-- Collaborators whose NLP analysis raises. -/
def nlpDownCollab : Collab :=
  { okCollabBase with analyze := fun _ => Except.error "nlp service unavailable" }

/-- Collaborators whose memory persistence raises. -/
def storeFailCollab : Collab :=
  { okCollabBase with
    store_interaction := fun _ => Except.error "memory store failure" }

/-- Collaborators whose NLP analysis yields the unmapped intent `"xyz"`
and whose plugin chain claims nothing. -/
def xyzCollab : Collab :=
  { okCollabBase with
    analyze := fun _ =>
      Except.ok { intent := some "xyz", entities := [], confidence := 1/2 } }

/-- A concrete execution context. -/
def sampleCtx : Context :=
  { current_time := "2026-10-12 00:00:00", user_location := "Unknown",
    recent_history := [], system_status := get_system_status,
    user_preferences := [], active_applications := [] }

/-- The fixed fallback response built by `_handle_unknown_command` when
no plugin claims the command. -/
def fallbackResponse : JarvisResponse :=
  { text := "I\x27m not sure how to help with that. Could you rephrase your request?",
    confidence := 1/10 }

/-- Event handler that succeeds, identity 1. -/
def handlerOne : EHandler := { id := 1, run := fun _ => Except.ok () }

/-- Event handler that raises, identity 0. -/
def failingHandler : EHandler :=
  { id := 0, run := fun _ => Except.error "handler failure" }

/-- Event handler that succeeds, identity 2. -/
def handlerThree : EHandler := { id := 2, run := fun _ => Except.ok () }

/-- Registry with three handlers on `"voice_command"`, the second of
which raises. -/
def busThree : RegistryT :=
  register_event_handler
    (register_event_handler
      (register_event_handler [] "voice_command" handlerOne)
      "voice_command" failingHandler)
    "voice_command" handlerThree

/-- Per-component behaviour in which every step succeeds. -/
def okB : Component → Except String Unit := fun _ => Except.ok ()

/-- Per-component behaviour in which the web component's shutdown
raises. -/
def webFailB : Component → Except String Unit := fun c =>
  if c = Component.web then Except.error "web shutdown failure"
  else Except.ok ()

/-! ## Helper lemmas on the Python string primitives -/

/-- Draining visits the items in order, returning all of them. -/
theorem drainLoop_id {α : Type} : ∀ xs : List α, drainLoop xs = xs
  | [] => rfl
  | x :: rest => by rw [drainLoop, drainLoop_id rest]

/-- A matched pattern is no longer than the scanned text. -/
theorem startsWith_length :
    ∀ (pat s : List Char), startsWith pat s = true → pat.length ≤ s.length
  | [], _, _ => Nat.zero_le _
  | _ :: _, [], h => by simp [startsWith] at h
  | p :: ps, c :: cs, h => by
    rw [startsWith, Bool.and_eq_true] at h
    simpa using Nat.succ_le_succ (startsWith_length ps cs h.2)

/-- When the pattern matches at the head, the scan resolves there. -/
theorem pyFindRest_of_startsWith {pat s : List Char}
    (h : startsWith pat s = true) :
    pyFindRest pat s = some (s.drop pat.length) := by
  cases s with
  | nil => rw [pyFindRest, if_pos h, List.drop_nil]
  | cons c cs => rw [pyFindRest, if_pos h]

/-- The remainder after the first occurrence is a suffix of the text and
is shorter than the text by at least the pattern's length. -/
theorem pyFindRest_suffix :
    ∀ (pat s r : List Char), pyFindRest pat s = some r →
      r <:+ s ∧ r.length + pat.length ≤ s.length
  | pat, [], r, h => by
    rw [pyFindRest] at h
    by_cases hs : startsWith pat [] = true
    · rw [if_pos hs] at h
      cases pat with
      | nil =>
        cases h
        exact ⟨List.suffix_refl _, by simp⟩
      | cons p ps => simp [startsWith] at hs
    · rw [if_neg hs] at h
      cases h
  | pat, c :: cs, r, h => by
    rw [pyFindRest] at h
    by_cases hs : startsWith pat (c :: cs) = true
    · rw [if_pos hs] at h
      cases h
      refine ⟨List.drop_suffix _ _, ?_⟩
      have hlen := startsWith_length pat (c :: cs) hs
      rw [List.length_drop]
      omega
    · rw [if_neg hs] at h
      have ih := pyFindRest_suffix pat cs r h
      refine ⟨ih.1.trans (List.suffix_cons c cs), ?_⟩
      have := ih.2
      simp only [List.length_cons]
      omega

/-- Of two suffixes of the same list, the shorter is a suffix of the
longer. -/
theorem suffix_of_len_le {α : Type} {s1 s2 t : List α} (h1 : s1 <:+ t)
    (h2 : s2 <:+ t) (hl : s1.length ≤ s2.length) : s1 <:+ s2 := by
  obtain ⟨a, ha⟩ := h1
  obtain ⟨b, hb⟩ := h2
  have hab : b ++ s2 = a ++ s1 := by rw [ha, hb]
  have hlen : b.length ≤ a.length := by
    have hc := congrArg List.length hab
    simp only [List.length_append] at hc
    omega
  have hsplit : b ++ s2 = a.take b.length ++ (a.drop b.length ++ s1) := by
    calc b ++ s2 = a ++ s1 := hab
    _ = a.take b.length ++ a.drop b.length ++ s1 := by
        rw [List.take_append_drop]
    _ = a.take b.length ++ (a.drop b.length ++ s1) := by
        rw [List.append_assoc]
  have htk : b.length = (a.take b.length).length := by
    rw [List.length_take]
    exact (Nat.min_eq_left hlen).symm
  obtain ⟨_, hs2⟩ := List.append_inj hsplit htk
  exact ⟨a.drop b.length, hs2.symm⟩

/-- Occurrence of a composite pattern `u ++ v` forces an occurrence of
`v`, and the remainder after the first `u ++ v` is a suffix of the
remainder after the first `v`. -/
theorem pyFindRest_append :
    ∀ (t u v r : List Char), pyFindRest (u ++ v) t = some r →
      ∃ r2, pyFindRest v t = some r2 ∧ r <:+ r2
  | [], u, v, r, h => by
    rw [pyFindRest] at h
    by_cases hs : startsWith (u ++ v) [] = true
    · rw [if_pos hs] at h
      cases h
      have huv : u ++ v = [] := by
        cases huv : u ++ v with
        | nil => rfl
        | cons a l => rw [huv] at hs; simp [startsWith] at hs
      obtain ⟨hu, hv⟩ := List.append_eq_nil.1 huv
      subst hv
      exact ⟨[], by rw [pyFindRest]; simp [startsWith], List.suffix_refl _⟩
    · rw [if_neg hs] at h
      cases h
  | c :: cs, u, v, r, h => by
    rw [pyFindRest] at h
    by_cases hs : startsWith (u ++ v) (c :: cs) = true
    · rw [if_pos hs] at h
      cases h
      by_cases hv : startsWith v (c :: cs) = true
      · refine ⟨(c :: cs).drop v.length, ?_, ?_⟩
        · rw [pyFindRest, if_pos hv]
        · rw [List.length_append, Nat.add_comm u.length v.length,
            ← List.drop_drop]
          exact List.drop_suffix _ _
      · cases u with
        | nil => rw [List.nil_append] at hs; exact absurd hs hv
        | cons a u2 =>
          have hs2 : startsWith (u2 ++ v) cs = true := by
            rw [List.cons_append, startsWith, Bool.and_eq_true] at hs
            exact hs.2
          have hfind : pyFindRest (u2 ++ v) cs
              = some (cs.drop (u2 ++ v).length) :=
            pyFindRest_of_startsWith hs2
          obtain ⟨r2, hr2, hsuf⟩ := pyFindRest_append cs u2 v _ hfind
          refine ⟨r2, by rw [pyFindRest, if_neg hv]; exact hr2, ?_⟩
          have hdrop : (c :: cs).drop ((a :: u2) ++ v).length
              = cs.drop (u2 ++ v).length := by
            rw [List.cons_append, List.length_cons, List.drop_succ_cons]
          rw [hdrop]
          exact hsuf
    · rw [if_neg hs] at h
      by_cases hv : startsWith v (c :: cs) = true
      · refine ⟨(c :: cs).drop v.length, by rw [pyFindRest, if_pos hv], ?_⟩
        have h4 := pyFindRest_suffix (u ++ v) cs r h
        have hvlen := startsWith_length v (c :: cs) hv
        refine suffix_of_len_le (t := c :: cs)
          (h4.1.trans (List.suffix_cons c cs)) (List.drop_suffix _ _) ?_
        have h42 := h4.2
        rw [List.length_append] at h42
        rw [List.length_drop]
        simp only [List.length_cons] at hvlen ⊢
        omega
      · rw [pyFindRest, if_neg hv]
        exact pyFindRest_append cs u v r h

/-- Containment of a composite pattern forces containment of its
second part. -/
theorem pyIn_append_mono {u v t : List Char}
    (h : pyIn (u ++ v) t = true) : pyIn v t = true := by
  rw [pyIn, Option.isSome_iff_exists] at h
  obtain ⟨r, hr⟩ := h
  obtain ⟨r2, hr2, _⟩ := pyFindRest_append t u v r hr
  rw [pyIn, hr2]
  rfl

/-- Left stripping is monotone with respect to the suffix order. -/
theorem pyLStrip_suffix_mono {s1 s2 : List Char} (h : s1 <:+ s2) :
    pyLStrip s1 <:+ pyLStrip s2 := by
  obtain ⟨pre, rfl⟩ := h
  induction pre with
  | nil => rw [List.nil_append]
  | cons a pre ih =>
    rw [List.cons_append]
    simp only [pyLStrip] at ih ⊢
    rw [List.dropWhile_cons]
    by_cases ha : pyIsSpace a = true
    · rw [if_pos ha]
      exact ih
    · rw [if_neg ha]
      refine (List.dropWhile_suffix _).trans ?_
      exact (List.suffix_append pre s1).trans (List.suffix_cons a _)

/-- Right stripping does not increase length along the suffix order. -/
theorem pyRStrip_length_mono {s1 s2 : List Char} (h : s1 <:+ s2) :
    (pyRStrip s1).length ≤ (pyRStrip s2).length := by
  obtain ⟨pre, rfl⟩ := h
  rw [pyRStrip, pyRStrip, List.reverse_append, List.length_reverse,
    List.length_reverse, List.dropWhile_append]
  by_cases he : (s1.reverse.dropWhile pyIsSpace).isEmpty = true
  · rw [if_pos he]
    have : s1.reverse.dropWhile pyIsSpace = [] := by
      rwa [List.isEmpty_iff] at he
    simp [this]
  · rw [if_neg he]
    simp [List.length_append]

/-- Python `strip()` does not increase length along the suffix order. -/
theorem pyStrip_length_mono {s1 s2 : List Char} (h : s1 <:+ s2) :
    (pyStrip s1).length ≤ (pyStrip s2).length :=
  pyRStrip_length_mono (pyLStrip_suffix_mono h)

/-- An extracted command certifies that some wake word occurs. -/
theorem extractLoop_some_any :
    ∀ (ws : List (List Char)) (t c : List Char), extractLoop ws t = some c →
      ws.any (fun w => pyIn w t) = true
  | [], _, _, h => by cases h
  | w :: ws, t, c, h => by
    rw [extractLoop] at h
    by_cases hw : pyIn w t = true
    · simp [List.any_cons, hw]
    · rw [if_neg hw] at h
      simp [List.any_cons, extractLoop_some_any ws t c h]

/-! ## Claim theorems -/

/-- C10: the source extraction loop coincides with the rule stated by
the claim: the command is the text after the first occurrence of
`"jarvis"` — the first matching phrase in the fixed list order, since
`"jarvis"` is a substring of every configured phrase — trimmed of
surrounding whitespace, and a command is produced exactly when that
trimmed residual is strictly longer than 2 characters; a residual of at
most 2 characters yields no command, and the later phrases can never
resurrect it. -/
theorem extract_command_refines_spec_rule (text : List Char) :
    extract_command_from_wake_phrase text = extract_spec_rule text := by
  have hhj : "hey jarvis".toList = "hey ".toList ++ "jarvis".toList := by decide
  have hoj : "ok jarvis".toList = "ok ".toList ++ "jarvis".toList := by decide
  rw [extract_command_from_wake_phrase, wake_words, extract_spec_rule,
    extractLoop]
  by_cases h1 : pyIn ("jarvis".toList) text = true
  · rw [if_pos h1, if_pos h1]
    by_cases h2 : (pyStrip (pySplitOnceLast ("jarvis".toList) text)).length > 2
    · rw [if_pos h2, if_pos h2]
    · rw [if_neg h2, if_neg h2]
      have key : ∀ u : List Char, pyIn (u ++ "jarvis".toList) text = true →
          ¬ (pyStrip (pySplitOnceLast (u ++ "jarvis".toList) text)).length > 2 := by
        intro u hu
        have hu2 := hu
        rw [pyIn, Option.isSome_iff_exists] at hu2
        obtain ⟨r, hr⟩ := hu2
        obtain ⟨r2, hr2, hsuf⟩ := pyFindRest_append text u _ r hr
        have e1 : pySplitOnceLast (u ++ "jarvis".toList) text = r := by
          rw [pySplitOnceLast, hr]
          rfl
        have e2 : pySplitOnceLast ("jarvis".toList) text = r2 := by
          rw [pySplitOnceLast, hr2]
          rfl
        have hm := pyStrip_length_mono hsuf
        rw [e1]
        rw [e2] at h2
        omega
      have hok : extractLoop ["ok jarvis".toList] text = none := by
        rw [extractLoop]
        by_cases h4 : pyIn ("ok jarvis".toList) text = true
        · have h4k :
              ¬ (pyStrip (pySplitOnceLast ("ok jarvis".toList) text)).length > 2 := by
            rw [hoj]
            refine key "ok ".toList ?_
            rw [← hoj]
            exact h4
          rw [if_pos h4, if_neg h4k, extractLoop]
        · rw [if_neg h4, extractLoop]
      rw [extractLoop]
      by_cases h3 : pyIn ("hey jarvis".toList) text = true
      · have h3k :
            ¬ (pyStrip (pySplitOnceLast ("hey jarvis".toList) text)).length > 2 := by
          rw [hhj]
          refine key "hey ".toList ?_
          rw [← hhj]
          exact h3
        rw [if_pos h3, if_neg h3k]
        exact hok
      · rw [if_neg h3]
        exact hok
  · rw [if_neg h1, if_neg h1]
    have h3 : ¬ pyIn ("hey jarvis".toList) text = true := by
      intro hcon
      rw [hhj] at hcon
      exact h1 (pyIn_append_mono hcon)
    have h4 : ¬ pyIn ("ok jarvis".toList) text = true := by
      intro hcon
      rw [hoj] at hcon
      exact h1 (pyIn_append_mono hcon)
    rw [extractLoop, if_neg h3, extractLoop, if_neg h4, extractLoop]

/-- C1 (amended): from `Idle`, an utterance whose lowered text yields an
extracted command enqueues exactly that command, but the detector is
left `Armed` (`wake_word_detected` stays `True`): `_process_audio` never
resets the flag on the single-shot path. -/
theorem single_shot_wake_command (cb : Callbacks) (s : EngineState)
    (text cmd : List Char) (_hidle : s.wake_word_detected = false)
    (hq : s.command_queue.maxsize = 0)
    (hext : extract_command_from_wake_phrase (pyLower text) = some cmd) :
    (process_audio cb s (RecogResult.ok text)).1.command_queue.items
        = s.command_queue.items ++ [cmd]
    ∧ (process_audio cb s (RecogResult.ok text)).1.wake_word_detected
        = true := by
  have hcont : contains_wake_word (pyLower text) = true := by
    rw [contains_wake_word]
    rw [extract_command_from_wake_phrase] at hext
    exact extractLoop_some_any _ _ _ hext
  rw [process_audio]
  simp only [hcont, if_true, hext, handle_command, PyQueue.put, hq]
  norm_num

/-- C1 witness: concrete single-shot utterance, enqueued verbatim while
the detector stays armed. -/
theorem single_shot_wake_command_witness :
    (process_audio cbAll engineIdle
        (RecogResult.ok ("hey jarvis turn on the lights".toList))).1.command_queue.items
      = engineIdle.command_queue.items ++ ["turn on the lights".toList]
    ∧ (process_audio cbAll engineIdle
        (RecogResult.ok ("hey jarvis turn on the lights".toList))).1.wake_word_detected
      = true :=
  single_shot_wake_command cbAll engineIdle
    ("hey jarvis turn on the lights".toList) ("turn on the lights".toList)
    rfl rfl (by decide)

/-- C1 counterexample: on `"hey jarvis what time is it"` from `Idle`,
exactly the command `"what time is it"` is enqueued, but the detector is
`Armed` afterwards, contradicting the claimed return to `Idle`. -/
theorem single_shot_counterexample :
    (process_audio cbAll engineIdle
        (RecogResult.ok ("hey jarvis what time is it".toList))).1.wake_word_detected
      = true
    ∧ (process_audio cbAll engineIdle
        (RecogResult.ok ("hey jarvis what time is it".toList))).1.command_queue.items
      = ["what time is it".toList] := by
  constructor
  · decide
  · decide

/-- C5 (amended): the source has no wake-word timeout: the passage of
time with no utterance runs no detector code, so the `Armed` state
persists indefinitely and nothing is enqueued; the detector leaves
`Armed` only on the next recognized utterance or `stop_listening`. -/
theorem armed_persists_without_utterance (cb : Callbacks) (s : EngineState)
    (n : Nat) :
    speech_step cb s (SpeechEngineInput.timePasses n) = (s, []) := rfl

/-- C5 counterexample: after arming on `"hey jarvis"`, an hour with no
utterance leaves the detector `Armed` with nothing enqueued, instead of
the claimed auto-revert to `Idle`. -/
theorem armed_timeout_counterexample :
    engineArmed.wake_word_detected = true
    ∧ (speech_step cbAll engineArmed
        (SpeechEngineInput.timePasses 3600)).1.wake_word_detected = true
    ∧ (speech_step cbAll engineArmed
        (SpeechEngineInput.timePasses 3600)).1.command_queue.items = [] := by
  refine ⟨by decide, by decide, by decide⟩

/-- C9: `stop_listening` is idempotent: when not listening it is a
no-op that changes nothing and fires nothing, and two consecutive stops
from the listening state (with the stop callback registered) fire
exactly one `listening_stop` event. -/
theorem stop_listening_idempotent :
    (∀ (cb : Callbacks) (s : EngineState), s.is_listening = false →
        stop_listening cb s = (s, []))
    ∧ (∀ (cb : Callbacks) (s : EngineState), s.is_listening = true →
        cb.on_listening_stop = true →
        ((stop_listening cb s).2
            ++ (stop_listening cb (stop_listening cb s).1).2).count
          SpeechEvent.listening_stop = 1) := by
  constructor
  · intro cb s h
    rw [stop_listening, if_neg]
    simp [h]
  · intro cb s h hcb
    simp [stop_listening, h, hcb]

/-- C9 witness: a stopped engine is untouched by `stop_listening`, and
stopping twice from `engineIdle` (which is listening) fires exactly one
`listening_stop`. -/
theorem stop_listening_idempotent_witness :
    stop_listening cbAll engineStopped = (engineStopped, [])
    ∧ ((stop_listening cbAll engineIdle).2
        ++ (stop_listening cbAll (stop_listening cbAll engineIdle).1).2).count
        SpeechEvent.listening_stop = 1 :=
  ⟨stop_listening_idempotent.1 cbAll _ rfl,
   stop_listening_idempotent.2 cbAll engineIdle rfl rfl⟩

/-- Unbounded `put` (default `maxsize = 0`) always accepts at the
tail. -/
theorem put_unbounded {α : Type} (q : PyQueue α) (x : α)
    (hq : q.maxsize = 0) :
    q.put x = ({ q with items := q.items ++ [x] }, true) := by
  rw [PyQueue.put, if_neg]
  rw [hq]
  simp

/-- Iterated unbounded `put` accepts every item in order. -/
theorem putAll_unbounded {α : Type} :
    ∀ (xs : List α) (q : PyQueue α), q.maxsize = 0 →
      putAll q xs = ({ q with items := q.items ++ xs }, true)
  | [], q, _ => by simp [putAll]
  | x :: xs, q, hq => by
    have hrec := putAll_unbounded xs
      ({ maxsize := q.maxsize, items := q.items ++ [x] } : PyQueue α) hq
    simp only [putAll, put_unbounded q x hq, hrec]
    simp [List.append_assoc]

/-- C6 (amended): the source's command queue is `queue.Queue()` with the
default `maxsize = 0`, hence unbounded: every enqueue is accepted, and
`get_pending_commands` drains the commands in exactly the order they
were accepted (FIFO). -/
theorem command_queue_unbounded_fifo (xs : List (List Char)) :
    (putAll command_queue_init xs).2 = true
    ∧ (get_pending_commands (putAll command_queue_init xs).1).1 = xs := by
  rw [putAll_unbounded xs command_queue_init rfl]
  constructor
  · rfl
  · rw [get_pending_commands]
    simp [drainLoop_id, command_queue_init]

/-- C6 counterexample: the command queue has no positive capacity
(`queue.Queue()` means an infinite queue), and enqueues are always
accepted, so no overflow policy ever rejects the newest item. -/
theorem command_queue_unbounded_counterexample :
    ¬ (0 < command_queue_init.maxsize)
    ∧ (putAll command_queue_init
        (List.replicate 10 ("overflow item".toList))).2 = true := by
  constructor
  · decide
  · decide

/-- Invocation trace identities follow the handler list in order. -/
theorem emitLoop_map_fst (p : List (String × String)) :
    ∀ hs : List EHandler,
      (emitLoop p hs).map Prod.fst = hs.map EHandler.id
  | [] => rfl
  | h :: hs => by
    rw [emitLoop]
    simp [emitLoop_map_fst p hs]

/-- The emission loop distributes over list append. -/
theorem emitLoop_append (p : List (String × String)) :
    ∀ xs ys : List EHandler,
      emitLoop p (xs ++ ys) = emitLoop p xs ++ emitLoop p ys
  | [], _ => rfl
  | x :: xs, ys => by
    rw [List.cons_append, emitLoop, emitLoop, emitLoop_append p xs ys,
      List.cons_append]

/-- Registration appends the handler at the end of its type's list. -/
theorem handlersFor_register :
    ∀ (reg : RegistryT) (t : String) (h : EHandler),
      handlersFor (register_event_handler reg t h) t
        = handlersFor reg t ++ [h]
  | [], t, h => by simp [register_event_handler, handlersFor]
  | (t', hs) :: rest, t, h => by
    rw [register_event_handler]
    by_cases ht : t' = t
    · rw [if_pos ht, handlersFor, handlersFor, if_pos ht, if_pos ht]
    · rw [if_neg ht, handlersFor, handlersFor, if_neg ht, if_neg ht]
      exact handlersFor_register rest t h

/-- C4: `emit_event` invokes every handler registered for the type in
registration order; a handler that raises is recorded and does not
prevent the subsequent handlers from being invoked (the trace around it
is unchanged whatever its outcome); the emit call returns its trace and
cannot raise; emitting on a type with no handlers is a no-op; and
registering the same handler twice makes it run twice per emit. -/
theorem emit_event_guarantees :
    (∀ (reg : RegistryT) (t : String)
        (p : Option (List (String × String))),
        (emit_event reg t p).map Prod.fst
          = (handlersFor reg t).map EHandler.id)
    ∧ (∀ (reg : RegistryT) (t : String)
        (p : Option (List (String × String)))
        (pre : List EHandler) (h : EHandler) (post : List EHandler),
        handlersFor reg t = pre ++ h :: post →
        emit_event reg t p
          = emitLoop (p.getD []) pre
            ++ (h.id, h.run (p.getD [])) :: emitLoop (p.getD []) post)
    ∧ (∀ (reg : RegistryT) (t : String)
        (p : Option (List (String × String))),
        handlersFor reg t = [] → emit_event reg t p = [])
    ∧ (∀ (reg : RegistryT) (t : String)
        (p : Option (List (String × String))) (h : EHandler),
        emit_event
            (register_event_handler (register_event_handler reg t h) t h) t p
          = emit_event reg t p
            ++ [(h.id, h.run (p.getD [])), (h.id, h.run (p.getD []))]) := by
  refine ⟨?_, ?_, ?_, ?_⟩
  · intro reg t p
    rw [emit_event]
    exact emitLoop_map_fst _ _
  · intro reg t p pre h post hreg
    rw [emit_event, hreg, emitLoop_append, emitLoop]
  · intro reg t p hreg
    rw [emit_event, hreg]
    rfl
  · intro reg t p h
    rw [emit_event, handlersFor_register, handlersFor_register, emit_event,
      emitLoop_append, emitLoop_append]
    simp [emitLoop]

/-- C4 witness: three handlers on `"voice_command"`, the second of which
raises; the trace shows all three invoked in order, and emitting on an
empty registry is a no-op. -/
theorem emit_event_guarantees_witness :
    emit_event busThree "voice_command" none
      = emitLoop [] [handlerOne]
        ++ (failingHandler.id, failingHandler.run [])
          :: emitLoop [] [handlerThree]
    ∧ emit_event [] "voice_command" none = [] :=
  ⟨emit_event_guarantees.2.1 busThree "voice_command" none [handlerOne]
      failingHandler [handlerThree] rfl,
   emit_event_guarantees.2.2.1 [] "voice_command" none rfl⟩

/-- C7 (amended): components are initialized in the order memory, NLP,
speech, automation, plugins, web with a failure aborting the rest;
shutdown runs web, automation, speech, NLP, memory — omitting the plugin
manager, hence not the exact reverse — and its steps are not
individually guarded: a failing shutdown step aborts and propagates,
leaving the remaining components not shut down. -/
theorem lifecycle_order :
    init_order = [Component.memory, Component.nlp, Component.speech,
        Component.automation, Component.plugins, Component.web]
    ∧ shutdown_order = [Component.web, Component.automation,
        Component.speech, Component.nlp, Component.memory]
    ∧ Component.plugins ∉ shutdown_order
    ∧ (∀ b : Component → Except String Unit,
        (∀ c, b c = Except.ok ()) → (jarvis_init b).1 = init_order)
    ∧ (∀ (b : Component → Except String Unit) (e : String),
        b Component.web = Except.error e →
        jarvis_shutdown b = ([], Except.error e)) := by
  refine ⟨rfl, rfl, by decide, ?_, ?_⟩
  · intro b hb
    simp [jarvis_init, init_order, runSteps, hb]
  · intro b e hb
    simp [jarvis_shutdown, shutdown_order, runSteps, hb]

/-- C7 witness: with all component steps succeeding, initialization
completes all six components in order; with a failing web shutdown, the
shutdown aborts immediately. -/
theorem lifecycle_order_witness :
    (jarvis_init okB).1 = init_order
    ∧ jarvis_shutdown webFailB
      = ([], Except.error "web shutdown failure") :=
  ⟨lifecycle_order.2.2.2.1 okB (fun _ => rfl),
   lifecycle_order.2.2.2.2 webFailB "web shutdown failure" rfl⟩

/-- C7 counterexample: the shutdown order is not the reverse of the
initialization order (the plugin manager is missing), and a failure in
the first shutdown step (web) aborts the whole shutdown with no other
component shut down, because the steps are not individually guarded. -/
theorem shutdown_order_counterexample :
    shutdown_order ≠ init_order.reverse
    ∧ jarvis_shutdown webFailB
      = ([], Except.error "web shutdown failure") := by
  constructor
  · decide
  · rfl

/-- C3: `process_command` wraps the whole pipeline in one
`try`/`except`: whenever any step raises, the call returns the fixed
error-text response with confidence `0.0` instead of propagating; by its
total type the function can never raise. -/
theorem process_command_catches_exceptions (c : Collab)
    (command source e : String)
    (h : processCommandAux c command source = Except.error e) :
    process_command c command source = errorResponse
    ∧ errorResponse.text
      = "I encountered an error processing that command. Please try again."
    ∧ errorResponse.confidence = 0 := by
  refine ⟨?_, rfl, rfl⟩
  rw [process_command, h]

/-- C3 witness: with the NLP collaborator raising, the pipeline returns
the fixed zero-confidence error response. -/
theorem process_command_catches_exceptions_witness :
    process_command nlpDownCollab "hello there" "voice" = errorResponse
    ∧ errorResponse.text
      = "I encountered an error processing that command. Please try again."
    ∧ errorResponse.confidence = 0 :=
  process_command_catches_exceptions nlpDownCollab "hello there" "voice"
    "nlp service unavailable" rfl

/-- C2 (code evaluation): steps 1 to 3 can never complete because
`_route_command` raises `AttributeError` while building its handler map
(three referenced handler methods are undefined), so `process_command`
returns the fixed error response on every input — including collaborator
assemblies whose memory persistence would fail in step 4 — rather than
ever returning a computed response. -/
theorem store_failure_returns_error_response :
    process_command storeFailCollab "what time is it" "voice"
      = errorResponse
    ∧ route_command storeFailCollab (some "information")
        [("query_type", "time")] sampleCtx (9/10)
      = Except.error
        "AttributeError: JarvisCore has no attribute _handle_entertainment_command" := by
  constructor
  · rfl
  · rfl

/-- C8 (code evaluation): with the unmapped intent `"xyz"` and a plugin
chain that claims nothing, `_route_command` raises `AttributeError`
before reaching the plugin-chain fallback, so `process_command` returns
the generic error response; the intended fallback path
(`_handle_unknown_command`) does produce a response of confidence `0.1`
and non-empty text, but it is dead code. -/
theorem unknown_intent_routing_dead_fallback :
    process_command xyzCollab "frobnicate the widget" "web" = errorResponse
    ∧ route_command xyzCollab (some "xyz") [] sampleCtx (1/2)
      = Except.error
        "AttributeError: JarvisCore has no attribute _handle_entertainment_command"
    ∧ handle_unknown_command xyzCollab [] sampleCtx (1/2)
      = Except.ok fallbackResponse
    ∧ fallbackResponse.confidence ≤ 1/10
    ∧ fallbackResponse.text ≠ "" := by
  refine ⟨rfl, rfl, rfl, le_refl _, by decide⟩
